import Mathlib

/-!
A shallow embedding of SublimePTY's `process.py` terminal-session core —
`Supervisor`, `Process`/`PtyProcess`, and the view-facing operations — with
theorems checking the specification's claims about them.

Modelling conventions:
* Python character strings are Lean `String`s; the raw byte stream read from
  the PTY master is a `List Char`.
* OS effects (`os.write`, `os.read`, `select.poll`, `pty.openpty`,
  `subprocess.Popen`) are modelled by explicit state: `written` logs the byte
  strings written to the master descriptor, `pending` holds the bytes the
  descriptor currently has ready, and file descriptors and the child-process
  handle are `Option Nat` (`none` being Python's `None`).
* A Python exception escaping a method is an `Except.error`; in every such
  method the exception is raised before any attribute assignment, so the
  receiver state is unchanged and the error carries no state.
* `uuid4().hex` is modelled as a fresh-identifier supply threaded through a
  `World` value. `pyte`'s `DiffScreen` is modelled as a grid of line strings
  with a dirty-line set and a cursor; `ByteStream.feed` is an external
  library call, logged chunk by chunk in `fed`.
-/

namespace SublimePTY

/-- A display surface attached to a process: the slice of the `SublimeView`
boundary that the session core reads. `availCols`/`availLines` are the
geometry the view reports (`available_columns()`/`available_lines()` results),
and `process` is the back-reference (`view.process`, holding the attached
process's id, or `none`). `vid` is the view's identity. -/
structure View where
  vid : Nat
  availCols : Nat
  availLines : Nat
  process : Option Nat
  deriving DecidableEq

/-- `SublimeView.available_columns`: the columns the view reports. -/
def View.available_columns (v : View) : Nat := v.availCols

/-- `SublimeView.available_lines`: the lines the view reports. -/
def View.available_lines (v : View) : Nat := v.availLines

/-- The part of pyte's `DiffScreen` state the session core touches: the
rendered `display` lines, the dirty line-index set, and the cursor. -/
structure Screen where
  display : List String
  dirty : List Nat
  cursor : Nat × Nat
  deriving DecidableEq

/-- The session state: the `Process` base-class attributes (`id`, `_views`,
`_columns`, `_lines`) plus the `PtyProcess` attributes (`_cmd`, `_cwd`,
`_master`, `_slave`, `_process`, and the diff screen). `written` logs the
byte strings written to the master descriptor, `pending` the input bytes the
master currently has ready, `fed` the chunks fed to the pyte stream, and
`pushed` the successive diff dictionaries delivered to the attached views.
The `_supervisor` back-reference (used only to register at construction) and
the `_env` dictionary (built from `os.environ` and only passed to `Popen`)
are not modelled. -/
structure PtyProcess where
  id : Nat
  views : List View
  columns : Nat
  lines : Nat
  cmd : List String
  cwd : String
  master : Option Nat
  slave : Option Nat
  process : Option Nat
  written : List String
  pending : List Char
  fed : List (List Char)
  screen : Screen
  pushed : List (List (Nat × String))
  deriving DecidableEq

/-- `Process.DEFAULT_COLUMNS`. -/
def PtyProcess.DEFAULT_COLUMNS : Nat := 80

/-- `Process.DEFAULT_LINES`. -/
def PtyProcess.DEFAULT_LINES : Nat := 24

/-- `PtyProcess.DEFAULT_LOCALE`. -/
def PtyProcess.DEFAULT_LOCALE : String := "en_US.UTF8"

/-- The `Supervisor`: its `processes` dictionary, modelled as an association
list where the most recent binding for an id shadows older ones (dictionary
assignment semantics). The dictionary is a `WeakValueDictionary` in the
source; garbage collection is not modelled, so every entry here corresponds
to a process that is still strongly referenced. -/
structure Supervisor where
  processes : List (Nat × PtyProcess)
  deriving DecidableEq

/-- `Supervisor.register`: store the process under its id (later registration
for the same id wins). -/
def Supervisor.register (s : Supervisor) (p : PtyProcess) : Supervisor :=
  ⟨(p.id, p) :: s.processes⟩

/-- `Supervisor.process`: lookup by id, returning the process or `None`. -/
def Supervisor.process (s : Supervisor) (process_id : Nat) : Option PtyProcess :=
  match s.processes.lookup process_id with
  | some p => some p
  | none => none

/-- Fresh-identifier supply modelling `uuid4().hex`: each construction draws
the next identifier, so distinct draws never coincide (the source relies on
uuid4 collisions being practically impossible). -/
structure World where
  nextId : Nat
  deriving DecidableEq

/-- Draw a fresh identifier (`uuid4().hex`). -/
def uuid4hex (w : World) : Nat × World := (w.nextId, ⟨w.nextId + 1⟩)

/-- The initial pyte `DiffScreen(80, 24)`: a blank grid with every line
dirty. -/
def initialScreen : Screen :=
  { display := List.replicate PtyProcess.DEFAULT_LINES
      (String.mk (List.replicate PtyProcess.DEFAULT_COLUMNS ' '))
    dirty := List.range PtyProcess.DEFAULT_LINES
    cursor := (0, 0) }

/-- `Process.__init__` followed by `PtyProcess.__init__`: draw a fresh id,
start with no attached views at the default geometry, register with the
supervisor, and leave the child process and PTY descriptors unallocated. -/
def PtyProcess.init (sup : Supervisor) (w : World) (cmd : List String) (cwd : String) :
    PtyProcess × Supervisor × World :=
  let fresh := uuid4hex w
  let p : PtyProcess :=
    { id := fresh.1
      views := []
      columns := PtyProcess.DEFAULT_COLUMNS
      lines := PtyProcess.DEFAULT_LINES
      cmd := cmd
      cwd := cwd
      master := none
      slave := none
      process := none
      written := []
      pending := []
      fed := []
      screen := initialScreen
      pushed := [] }
  (p, sup.register p, fresh.2)

/-- `Process.attach_view`: append the view to `_views` and set the view's
back-reference (`view.process = self`). The updated view is returned
alongside the process since the Python object is shared. -/
def PtyProcess.attach_view (p : PtyProcess) (v : View) : PtyProcess × View :=
  let v' : View := { v with process := some p.id }
  ({ p with views := p.views ++ [v'] }, v')

/-- `Process.detach_view`: the body in the source is `pass`, so nothing is
removed from `_views` and the view's back-reference is not cleared. -/
def PtyProcess.detach_view (p : PtyProcess) (v : View) : PtyProcess × View :=
  (p, v)

/-- `Process.available_columns`: start from `DEFAULT_COLUMNS` and take the
minimum with every attached view's reported columns. -/
def PtyProcess.available_columns (p : PtyProcess) : Nat :=
  p.views.foldl (fun ac v => min ac v.available_columns) PtyProcess.DEFAULT_COLUMNS

/-- `Process.available_lines`: start from `DEFAULT_LINES` and take the
minimum with every attached view's reported lines. -/
def PtyProcess.available_lines (p : PtyProcess) : Nat :=
  p.views.foldl (fun al v => min al v.available_lines) PtyProcess.DEFAULT_LINES

/-- Python exceptions that methods of this module can raise. -/
inductive PyError where
  /-- Raised by `os.write` when the descriptor argument is `None`/invalid
  (the specification's `WriteError`). -/
  | writeError
  /-- Raised by calling a method (`kill`) on `None`. -/
  | attributeError
  deriving DecidableEq

/-- `PtyProcess._start` (called by `start`): allocate the PTY pair
(`pty.openpty()`), spawn the child (`subprocess.Popen`), and register the
master with the poll object. The descriptors and pid come from the OS and
are taken as arguments. -/
def PtyProcess.start (p : PtyProcess) (masterFd slaveFd pid : Nat) : PtyProcess :=
  { p with master := some masterFd, slave := some slaveFd, process := some pid }

/-- `PtyProcess.stop`: `self._process.kill()` then `self._process = None`.
When `_process` is already `None`, the `kill()` call raises
`AttributeError`. The PTY descriptors are not touched. -/
def PtyProcess.stop (p : PtyProcess) : Except PyError PtyProcess :=
  match p.process with
  | none => .error .attributeError
  | some _ => .ok { p with process := none }

/-- `PtyProcess.is_running`: true iff a child-process handle is held. -/
def PtyProcess.is_running (p : PtyProcess) : Bool :=
  p.process.isSome

/-- `PtyProcess.KEYMAP` with Python string escapes made explicit:
`"\b"` is `"\x08"`, and `"\e[[19~"` has no `\e` escape in Python, so it is a
literal backslash followed by `e[[19~`. -/
def PtyProcess.KEYMAP : List (String × String) :=
  [("enter", "\n"), ("tab", "\t"), ("f10", "\x1b[21~"),
   ("space", " "),
   ("f8", "\\e[[19~"), ("escape", "\x1b\x1b"), ("down", "\x1b[B"),
   ("up", "\x1b[A"), ("right", "\x1b[C"), ("left", "\x1b[D"),
   ("backspace", "\x08")]

/-- `PtyProcess.send_bytes`: if the argument is a `KEYMAP` key it is first
replaced by its mapped sequence, then the result is written to the master
descriptor (`os.write`); with no master descriptor the write raises. -/
def PtyProcess.send_bytes (p : PtyProcess) (bytes : String) : Except PyError PtyProcess :=
  let bytes := match PtyProcess.KEYMAP.lookup bytes with
    | some translated => translated
    | none => bytes
  match p.master with
  | none => .error .writeError
  | some _ => .ok { p with written := p.written ++ [bytes] }

/-- The dirty-lines dictionary built by `refresh_views`:
`\x7blineno: display[lineno] for lineno in dirty\x7d` (pyte keeps every dirty
index within the display, so the out-of-range default is never consulted). -/
def Screen.linesDict (s : Screen) : List (Nat × String) :=
  s.dirty.map (fun lineno => (lineno, s.display.getD lineno ""))

/-- `PtyProcess.refresh_views`: snapshot the dirty lines into a dictionary,
clear the dirty set, and push the diff (with the cursor) to every attached
view; `pushed` logs the successive diffs delivered. -/
def PtyProcess.refresh_views (p : PtyProcess) : PtyProcess :=
  let lines_dict := p.screen.linesDict
  { p with screen := { p.screen with dirty := [] }
           pushed := p.pushed ++ [lines_dict] }

/-- The `while` loop of `PtyProcess._read`: while the zero-timeout poll
reports input ready (the master has pending bytes), read at most 100 bytes
(`os.read(master, 100)`) and feed them to the emulator stream. Returns the
total byte count and the updated feed log. -/
def readLoop (pending : List Char) (fed : List (List Char)) : Nat × List (List Char) :=
  if h : pending = [] then (0, fed)
  else
    let data := pending.take 100
    let r := readLoop (pending.drop 100) (fed ++ [data])
    (data.length + r.1, r.2)
termination_by pending.length
decreasing_by
  have hp : 0 < pending.length := List.length_pos.mpr h
  simp only [List.length_drop]
  omega

/-- `PtyProcess._read`: drain the ready input in bounded chunks, feeding each
chunk to the emulator; if the byte count is nonzero, refresh the attached
views. Returns the byte count and the new state. -/
def PtyProcess._read (p : PtyProcess) : Nat × PtyProcess :=
  let r := readLoop p.pending p.fed
  let p' : PtyProcess := { p with pending := [], fed := r.2 }
  if r.1 ≠ 0 then (r.1, p'.refresh_views) else (r.1, p')

/-- `PtyProcess.send_keypress` (the later of the two definitions in the
class body, which is the one Python keeps): `send_bytes(key)` — which does
the keymap resolution — then immediately `_read()`. The modifier flags are
accepted and never used. -/
def PtyProcess.send_keypress (p : PtyProcess) (key : String)
    (ctrl alt shift super : Bool) : Except PyError (Nat × PtyProcess) :=
  match p.send_bytes key with
  | .error e => .error e
  | .ok q => .ok q._read

/-! Helper lemmas shared by the claim theorems. -/

theorem foldl_min_le_init (l : List Nat) (a : Nat) : l.foldl min a ≤ a := by
  induction l generalizing a with
  | nil => simp
  | cons x xs ih =>
    simp only [List.foldl_cons]
    exact le_trans (ih (min a x)) (min_le_left a x)

theorem foldl_min_le_mem (l : List Nat) (a : Nat) : ∀ x ∈ l, l.foldl min a ≤ x := by
  induction l generalizing a with
  | nil => simp
  | cons y ys ih =>
    intro x hx
    simp only [List.foldl_cons]
    rcases List.mem_cons.mp hx with h | h
    · subst h
      exact le_trans (foldl_min_le_init ys (min a x)) (min_le_right a x)
    · exact ih (min a y) x h

theorem le_foldl_min (l : List Nat) (a c : Nat) (h1 : c ≤ a) (h2 : ∀ x ∈ l, c ≤ x) :
    c ≤ l.foldl min a := by
  induction l generalizing a with
  | nil => simpa using h1
  | cons y ys ih =>
    simp only [List.foldl_cons]
    exact ih (min a y) (le_min h1 (h2 y (List.mem_cons_self y ys)))
      (fun x hx => h2 x (List.mem_cons_of_mem y hx))

theorem available_columns_eq_foldl (p : PtyProcess) :
    p.available_columns =
      (p.views.map View.available_columns).foldl min PtyProcess.DEFAULT_COLUMNS := by
  simp [PtyProcess.available_columns, List.foldl_map]

theorem available_lines_eq_foldl (p : PtyProcess) :
    p.available_lines =
      (p.views.map View.available_lines).foldl min PtyProcess.DEFAULT_LINES := by
  simp [PtyProcess.available_lines, List.foldl_map]

/-- The 100-byte chunking `_read`'s loop performs on the pending input. -/
def chunks100 (l : List Char) : List (List Char) :=
  if h : l = [] then []
  else l.take 100 :: chunks100 (l.drop 100)
termination_by l.length
decreasing_by
  have hp : 0 < l.length := List.length_pos.mpr h
  simp only [List.length_drop]
  omega

theorem readLoop_eq : ∀ (n : Nat) (pending : List Char), pending.length ≤ n →
    ∀ fed, readLoop pending fed = (pending.length, fed ++ chunks100 pending) := by
  intro n
  induction n with
  | zero =>
    intro pending h fed
    have : pending = [] := List.eq_nil_of_length_eq_zero (Nat.le_zero.mp h)
    subst this
    rw [readLoop, chunks100]
    simp
  | succ n ih =>
    intro pending h fed
    by_cases hp : pending = []
    · subst hp
      rw [readLoop, chunks100]
      simp
    · rw [readLoop, chunks100]
      simp only [hp, dite_false]
      have hlen : (pending.drop 100).length ≤ n := by
        have : 0 < pending.length := List.length_pos.mpr hp
        simp only [List.length_drop]
        omega
      rw [ih (pending.drop 100) hlen (fed ++ [pending.take 100])]
      simp only [Prod.mk.injEq]
      constructor
      · simp only [List.length_take, List.length_drop]
        omega
      · simp [List.append_assoc]

theorem chunks100_flatten : ∀ (n : Nat) (l : List Char), l.length ≤ n →
    (chunks100 l).flatten = l := by
  intro n
  induction n with
  | zero =>
    intro l h
    have : l = [] := List.eq_nil_of_length_eq_zero (Nat.le_zero.mp h)
    subst this
    rw [chunks100]
    simp
  | succ n ih =>
    intro l h
    by_cases hl : l = []
    · subst hl
      rw [chunks100]
      simp
    · rw [chunks100]
      simp only [hl, dite_false, List.flatten_cons]
      have : 0 < l.length := List.length_pos.mpr hl
      rw [ih (l.drop 100) (by simp only [List.length_drop]; omega)]
      exact List.take_append_drop 100 l

theorem chunks100_bounded : ∀ (n : Nat) (l : List Char), l.length ≤ n →
    ∀ c ∈ chunks100 l, c.length ≤ 100 := by
  intro n
  induction n with
  | zero =>
    intro l h
    have : l = [] := List.eq_nil_of_length_eq_zero (Nat.le_zero.mp h)
    subst this
    rw [chunks100]
    simp
  | succ n ih =>
    intro l h c hc
    by_cases hl : l = []
    · subst hl
      rw [chunks100] at hc
      simp at hc
    · rw [chunks100] at hc
      simp only [hl, dite_false, List.mem_cons] at hc
      rcases hc with hc | hc
      · subst hc
        simp [List.length_take]
      · have : 0 < l.length := List.length_pos.mpr hl
        exact ih (l.drop 100) (by simp only [List.length_drop]; omega) c hc

theorem send_bytes_ok (p : PtyProcess) (raw : String) (fd : Nat) (h : p.master = some fd) :
    p.send_bytes raw =
      .ok { p with written := p.written ++ [(PtyProcess.KEYMAP.lookup raw).getD raw] } := by
  unfold PtyProcess.send_bytes
  cases hl : PtyProcess.KEYMAP.lookup raw <;> simp [h, hl]

theorem send_bytes_none (p : PtyProcess) (raw : String) (h : p.master = none) :
    p.send_bytes raw = .error .writeError := by
  unfold PtyProcess.send_bytes
  cases hl : PtyProcess.KEYMAP.lookup raw <;> simp [h, hl]

/-! Concrete states used by counterexamples and witnesses. -/

/-- An empty supervisor. -/
def emptySup : Supervisor := ⟨[]⟩

/-- The initial identifier supply. -/
def world0 : World := ⟨0⟩

/-- A freshly constructed process (no views, not started). -/
def proc0 : PtyProcess := (PtyProcess.init emptySup world0 ["/bin/sh"] ".").1

/-- A view reporting available geometry (100, 40). -/
def viewA : View := { vid := 1, availCols := 100, availLines := 40, process := none }

/-- A view reporting available geometry (60, 20). -/
def viewB : View := { vid := 2, availCols := 60, availLines := 20, process := none }

/-- `proc0` with `viewA` attached. -/
def procWithA : PtyProcess := (proc0.attach_view viewA).1

/-- The attached copy of `viewA` (back-reference set). -/
def viewA' : View := (proc0.attach_view viewA).2

/-- `proc0` with `viewA` then `viewB` attached. -/
def procAB : PtyProcess := (procWithA.attach_view viewB).1

/-- The attached copy of `viewB` (back-reference set). -/
def viewB' : View := (procWithA.attach_view viewB).2

/-- `procAB` after `detach_view` of the (60, 20) view. -/
def procAfterDetach : PtyProcess := (procAB.detach_view viewB').1

/-- `proc0` after `start` with OS-supplied descriptors 3, 4 and pid 1000. -/
def procStarted : PtyProcess := proc0.start 3 4 1000

/-- `procStarted` after a successful `stop`. -/
def procStopped : PtyProcess := { procStarted with process := none }

/-- `procStarted` with the bytes `hi` ready on the master descriptor. -/
def procWithInput : PtyProcess := { procStarted with pending := ['h', 'i'] }

/-! Theorems for the claims. -/

/-- Claim C1, counterexample: attaching views reporting (100, 40) and (60, 20)
does yield session geometry (60, 20), but detaching the (60, 20) view and
recomputing still yields (60, 20) — not (100, 40) — because `detach_view`
removes nothing; moreover a session with the single view (100, 40) attached
reports (80, 24), not (100, 40), because the fold starts at the defaults, so
the reported geometry is not the minimum over the attached views alone. -/
theorem c1_counterexample :
    procAB.available_columns = 60 ∧ procAB.available_lines = 20 ∧
    procAfterDetach.available_columns = 60 ∧ procAfterDetach.available_lines = 20 ∧
    ¬(procAfterDetach.available_columns = 100 ∧ procAfterDetach.available_lines = 40) ∧
    viewA'.available_columns = 100 ∧ viewA'.available_lines = 40 ∧
    procWithA.available_columns = 80 ∧ procWithA.available_lines = 24 := by
  decide

/-- Claim C1, amended: the geometry a session reports is the minimum of the
defaults (80 × 24) and all attached views' reported geometry — it equals
80 × 24 with no views attached, is a lower bound on every attached view's
geometry, never exceeds 80 × 24, and is the greatest value with those
properties; `detach_view` changes nothing, so attaching views reporting
(100, 40) and (60, 20) yields (60, 20) and detaching the (60, 20) view
leaves the geometry at (60, 20). -/
theorem c1_geometry_min (p : PtyProcess) :
    (p.views = [] →
      p.available_columns = PtyProcess.DEFAULT_COLUMNS ∧
      p.available_lines = PtyProcess.DEFAULT_LINES) ∧
    p.available_columns ≤ PtyProcess.DEFAULT_COLUMNS ∧
    p.available_lines ≤ PtyProcess.DEFAULT_LINES ∧
    (∀ v ∈ p.views, p.available_columns ≤ v.available_columns ∧
      p.available_lines ≤ v.available_lines) ∧
    (∀ c, c ≤ PtyProcess.DEFAULT_COLUMNS → (∀ v ∈ p.views, c ≤ v.available_columns) →
      c ≤ p.available_columns) ∧
    (∀ l, l ≤ PtyProcess.DEFAULT_LINES → (∀ v ∈ p.views, l ≤ v.available_lines) →
      l ≤ p.available_lines) ∧
    (∀ v, p.detach_view v = (p, v)) ∧
    (procAB.available_columns = 60 ∧ procAB.available_lines = 20) ∧
    (procAfterDetach.available_columns = 60 ∧ procAfterDetach.available_lines = 20) := by
  refine ⟨?_, ?_, ?_, ?_, ?_, ?_, fun v => rfl, by decide, by decide⟩
  · intro h
    simp [PtyProcess.available_columns, PtyProcess.available_lines, h]
  · rw [available_columns_eq_foldl]
    exact foldl_min_le_init _ _
  · rw [available_lines_eq_foldl]
    exact foldl_min_le_init _ _
  · intro v hv
    constructor
    · rw [available_columns_eq_foldl]
      exact foldl_min_le_mem _ _ _ (List.mem_map_of_mem View.available_columns hv)
    · rw [available_lines_eq_foldl]
      exact foldl_min_le_mem _ _ _ (List.mem_map_of_mem View.available_lines hv)
  · intro c hc hv
    rw [available_columns_eq_foldl]
    refine le_foldl_min _ _ _ hc ?_
    intro x hx
    rcases List.mem_map.mp hx with ⟨v, hv', rfl⟩
    exact hv v hv'
  · intro l hl hv
    rw [available_lines_eq_foldl]
    refine le_foldl_min _ _ _ hl ?_
    intro x hx
    rcases List.mem_map.mp hx with ⟨v, hv', rfl⟩
    exact hv v hv'

/-- Claim C1, witness: instantiating the greatest-lower-bound and
lower-bound conjuncts at the two-view session. -/
theorem c1_geometry_min_witness :
    60 ≤ procAB.available_columns ∧ procAB.available_columns ≤ viewB'.available_columns :=
  ⟨(c1_geometry_min procAB).2.2.2.2.1 60 (by decide) (by decide),
   ((c1_geometry_min procAB).2.2.2.1 viewB' (by decide)).1⟩

/-- Claim C2: evaluated at a session with one attached view, `detach_view`
leaves the session's view list holding that view and leaves the view's
back-reference pointing at the session — the source body is `pass`, so the
detach required by the specification never happens. -/
theorem c2_detach_view_noop :
    procWithA.views = [viewA'] ∧
    viewA'.process = some procWithA.id ∧
    (procWithA.detach_view viewA').1 = procWithA ∧
    (procWithA.detach_view viewA').2 = viewA' :=
  ⟨rfl, rfl, rfl, rfl⟩

/-- Claim C3, counterexample: on a started session, `send_bytes "enter"`
writes the translated bytes `"\n"` to the PTY master, not the argument
itself — `send_bytes` substitutes KEYMAP entries rather than writing its
input verbatim. -/
theorem c3_counterexample :
    procStarted.send_bytes "enter" = .ok { procStarted with written := ["\n"] } ∧
    "\n" ≠ "enter" :=
  ⟨rfl, by decide⟩

/-- Claim C3, amended: on a started session, `send_bytes raw` writes the
KEYMAP translation of `raw` when `raw` is a KEYMAP key and writes `raw`
itself (verbatim) otherwise. -/
theorem c3_send_bytes_translates (p : PtyProcess) (raw : String) (fd : Nat)
    (h : p.master = some fd) :
    p.send_bytes raw =
      .ok { p with written := p.written ++ [(PtyProcess.KEYMAP.lookup raw).getD raw] } ∧
    (PtyProcess.KEYMAP.lookup raw = none →
      p.send_bytes raw = .ok { p with written := p.written ++ [raw] }) := by
  refine ⟨send_bytes_ok p raw fd h, fun hn => ?_⟩
  rw [send_bytes_ok p raw fd h, hn]
  rfl

/-- Claim C3, witness: a token outside the keymap is written verbatim. -/
theorem c3_send_bytes_translates_witness :
    procStarted.send_bytes "xyz" =
      .ok { procStarted with
              written := procStarted.written ++ [(PtyProcess.KEYMAP.lookup "xyz").getD "xyz"] } :=
  (c3_send_bytes_translates procStarted "xyz" 3 rfl).1

/-- Claim C4, counterexample: stopping a started session succeeds, but a
second `stop` on the already-stopped session raises `AttributeError`
(`None.kill()`) instead of being a no-op. -/
theorem c4_counterexample :
    procStarted.stop = .ok procStopped ∧
    procStopped.stop = .error .attributeError ∧
    procStopped.is_running = false :=
  ⟨rfl, rfl, rfl⟩

/-- Claim C4, amended: `stop` on a session holding a process handle kills it,
clears the handle, and leaves `is_running` false; `stop` on a session with no
process handle (never started, or already stopped) raises `AttributeError`
rather than being a no-op — `is_running` is false in that situation too. -/
theorem c4_stop_not_idempotent (p : PtyProcess) :
    (∀ pid, p.process = some pid →
      p.stop = .ok { p with process := none } ∧
      ({ p with process := none } : PtyProcess).is_running = false) ∧
    (p.process = none → p.stop = .error .attributeError ∧ p.is_running = false) := by
  constructor
  · intro pid hp
    constructor
    · unfold PtyProcess.stop
      rw [hp]
    · simp [PtyProcess.is_running]
  · intro hp
    constructor
    · unfold PtyProcess.stop
      rw [hp]
    · simp [PtyProcess.is_running, hp]

/-- Claim C4, witness: the first stop of the started session succeeds. -/
theorem c4_stop_not_idempotent_witness :
    procStarted.stop = .ok { procStarted with process := none } :=
  ((c4_stop_not_idempotent procStarted).1 1000 rfl).1

/-- Claim C5: on a started session, `send_keypress` resolves the key through
the KEYMAP (`"enter"` maps to `"\n"`), falls back to writing the token
itself when it is not a KEYMAP key, and the result is exactly a
`_read` (poll-and-read) performed immediately on the state in which the
resolved bytes have been written. -/
theorem c5_send_keypress (p : PtyProcess) (key : String) (ctrl alt shift super : Bool)
    (fd : Nat) (h : p.master = some fd) :
    PtyProcess.KEYMAP.lookup "enter" = some "\n" ∧
    p.send_keypress key ctrl alt shift super =
      .ok ({ p with
              written := p.written ++ [(PtyProcess.KEYMAP.lookup key).getD key] } :
            PtyProcess)._read ∧
    (PtyProcess.KEYMAP.lookup key = none →
      p.send_keypress key ctrl alt shift super =
        .ok ({ p with written := p.written ++ [key] } : PtyProcess)._read) := by
  refine ⟨rfl, ?_, ?_⟩
  · unfold PtyProcess.send_keypress
    rw [send_bytes_ok p key fd h]
  · intro hn
    unfold PtyProcess.send_keypress
    rw [send_bytes_ok p key fd h, hn]
    rfl

/-- Claim C5, witness: `send_keypress "enter"` on the started session writes
the keymap translation and immediately polls-and-reads. -/
theorem c5_send_keypress_witness :
    PtyProcess.KEYMAP.lookup "enter" = some "\n" ∧
    procStarted.send_keypress "enter" false false false false =
      .ok ({ procStarted with
              written := procStarted.written ++
                [(PtyProcess.KEYMAP.lookup "enter").getD "enter"] } : PtyProcess)._read :=
  ⟨(c5_send_keypress procStarted "enter" false false false false 3 rfl).1,
   (c5_send_keypress procStarted "enter" false false false false 3 rfl).2.1⟩

/-- Claim C6: `_read` returns 0 exactly when the master has no input ready,
returns the total pending byte count otherwise, drains the input in chunks
of at most 100 bytes whose concatenation is exactly the pending input (each
chunk fed to the emulator stream in order), and pushes a refresh to the
attached views if and only if the returned count is nonzero. -/
theorem c6_poll_and_read (p : PtyProcess) :
    ((p._read).1 = 0 ↔ p.pending = []) ∧
    (p._read).1 = p.pending.length ∧
    (p._read).2.fed = p.fed ++ chunks100 p.pending ∧
    (chunks100 p.pending).flatten = p.pending ∧
    (∀ c ∈ chunks100 p.pending, c.length ≤ 100) ∧
    (p._read).2.pushed =
      (if (p._read).1 = 0 then p.pushed else p.pushed ++ [p.screen.linesDict]) := by
  have hr := readLoop_eq p.pending.length p.pending le_rfl p.fed
  have hflat := chunks100_flatten p.pending.length p.pending le_rfl
  have hbnd := chunks100_bounded p.pending.length p.pending le_rfl
  by_cases hp : p.pending = []
  · have hch : chunks100 ([] : List Char) = [] := by
      rw [chunks100]
      simp
    have h0 : readLoop ([] : List Char) p.fed = (0, p.fed) := by
      rw [readLoop]
      simp
    simp [PtyProcess._read, hp, h0, hch, PtyProcess.refresh_views]
  · have hlen : p.pending.length ≠ 0 := fun h0 => hp (List.eq_nil_of_length_eq_zero h0)
    simp [PtyProcess._read, hr, hp, hlen, hflat, PtyProcess.refresh_views,
      List.length_eq_zero]
    exact hbnd

/-- Claim C6, witness: two pending bytes give count 2 and are drained in one
chunk. -/
theorem c6_poll_and_read_witness :
    (procWithInput._read).1 = procWithInput.pending.length ∧
    (chunks100 procWithInput.pending).flatten = procWithInput.pending :=
  ⟨(c6_poll_and_read procWithInput).2.1, (c6_poll_and_read procWithInput).2.2.2.1⟩

/-- Claim C7: a refresh consumes the dirty set — after `refresh_views` the
dirty set is empty, and a second `refresh_views` with no intervening feed
leaves the screen (content and dirty set) unchanged and pushes an empty
diff dictionary to the views. -/
theorem c7_snapshot_idempotent (p : PtyProcess) :
    p.refresh_views.screen.dirty = [] ∧
    p.refresh_views.refresh_views.screen = p.refresh_views.screen ∧
    p.refresh_views.refresh_views.screen.display = p.screen.display ∧
    p.refresh_views.refresh_views.pushed = p.refresh_views.pushed ++ [[]] :=
  ⟨rfl, rfl, rfl, rfl⟩

/-- Claim C8, counterexample: after `start` then `stop`, the session is
stopped but the PTY master descriptor is untouched (stop never closes it),
so `send_bytes` on the stopped session succeeds instead of failing with a
write error. -/
theorem c8_counterexample :
    procStarted.stop = .ok procStopped ∧
    procStopped.is_running = false ∧
    procStopped.master = some 3 ∧
    procStopped.send_bytes "x" = .ok { procStopped with written := ["x"] } :=
  ⟨rfl, rfl, rfl, rfl⟩

/-- Claim C8, amended: `send_bytes` and `send_keypress` fail with the write
error exactly when the session holds no master descriptor (it was never
started) — the failure is surfaced to the caller and, the exception being
raised before any attribute assignment, the session state is unchanged;
`stop` does not close the PTY descriptors, so an already-stopped session's
sends still succeed. -/
theorem c8_write_error (p : PtyProcess) (raw : String) (ctrl alt shift super : Bool) :
    (p.master = none →
      p.send_bytes raw = .error .writeError ∧
      p.send_keypress raw ctrl alt shift super = .error .writeError) ∧
    (∀ pid, p.process = some pid →
      p.stop = .ok { p with process := none } ∧
      ({ p with process := none } : PtyProcess).master = p.master) := by
  constructor
  · intro h
    refine ⟨send_bytes_none p raw h, ?_⟩
    unfold PtyProcess.send_keypress
    rw [send_bytes_none p raw h]
  · intro pid hp
    constructor
    · unfold PtyProcess.stop
      rw [hp]
    · rfl

/-- Claim C8, witness: the never-started session's `send_bytes` fails. -/
theorem c8_write_error_witness :
    proc0.send_bytes "x" = .error .writeError :=
  ((c8_write_error proc0 "x" false false false false).1 rfl).1

/-- Claim C9: `send_keypress` produces exactly the same result — in
particular the same bytes written to the PTY — for any two combinations of
the modifier flags; the modifiers are accepted and never consulted. -/
theorem c9_modifier_noninterference (p : PtyProcess) (key : String)
    (c1 a1 s1 u1 c2 a2 s2 u2 : Bool) :
    p.send_keypress key c1 a1 s1 u1 = p.send_keypress key c2 a2 s2 u2 :=
  rfl

/-- Claim C10: constructing a `PtyProcess` with a supervisor immediately
registers it under its freshly drawn id — supervisor lookup by that id
returns the new, not-yet-started process — and a second construction draws
a distinct id and is likewise registered. -/
theorem c10_register_on_init (sup : Supervisor) (w : World)
    (cmd cmd2 : List String) (cwd cwd2 : String) :
    ((PtyProcess.init sup w cmd cwd).2.1.process (PtyProcess.init sup w cmd cwd).1.id
       = some (PtyProcess.init sup w cmd cwd).1) ∧
    (PtyProcess.init sup w cmd cwd).1.is_running = false ∧
    ((PtyProcess.init (PtyProcess.init sup w cmd cwd).2.1
        (PtyProcess.init sup w cmd cwd).2.2 cmd2 cwd2).1.id
       ≠ (PtyProcess.init sup w cmd cwd).1.id) ∧
    ((PtyProcess.init (PtyProcess.init sup w cmd cwd).2.1
        (PtyProcess.init sup w cmd cwd).2.2 cmd2 cwd2).2.1.process
       (PtyProcess.init (PtyProcess.init sup w cmd cwd).2.1
        (PtyProcess.init sup w cmd cwd).2.2 cmd2 cwd2).1.id
       = some (PtyProcess.init (PtyProcess.init sup w cmd cwd).2.1
          (PtyProcess.init sup w cmd cwd).2.2 cmd2 cwd2).1) := by
  refine ⟨?_, rfl, ?_, ?_⟩
  · simp [PtyProcess.init, uuid4hex, Supervisor.register, Supervisor.process, List.lookup]
  · simp [PtyProcess.init, uuid4hex]
  · simp [PtyProcess.init, uuid4hex, Supervisor.register, Supervisor.process, List.lookup]

end SublimePTY
